import Mathlib

/-!
Shallow embedding of the automl repository: `schema/enums.py`,
`schema/descriptors.py`, `common.py` and `transformer.py`.

Pandas columns are modelled as lists of optional values (`none` = missing cell).
Floating point numbers are modelled as exact rationals, since the properties
under study concern nullability, classification and error behaviour, not
rounding.  Python exceptions are modelled as an explicit error type returned
through `Except`.
-/

/-- Native (numpy/pandas) storage dtype of a column, as discriminated by the
`pandas.api.types` and `np.issubdtype` predicates used in the source. -/
inductive NpDtype where
  | int_
  | float_
  | bool_
  | datetime
  | object_
  | string_
  | categorical
  | other (n : String)
deriving DecidableEq, Repr

/-- Display name of a storage dtype, used inside error messages. -/
def npDtypeName : NpDtype → String
  | .int_ => "int64"
  | .float_ => "float64"
  | .bool_ => "bool"
  | .datetime => "datetime64[ns]"
  | .object_ => "object"
  | .string_ => "str"
  | .categorical => "category"
  | .other n => n

/-- pandas.api.types.is_numeric_dtype: true for integer, floating and boolean
storage (pandas counts bool as a numeric dtype). -/
def is_numeric_dtype : NpDtype → Bool
  | .int_ | .float_ | .bool_ => true
  | _ => false

/-- pandas.api.types.is_string_dtype: true for object and string storage, and
also (a documented pandas quirk) for categorical storage. -/
def is_string_dtype : NpDtype → Bool
  | .object_ | .string_ | .categorical => true
  | _ => false

/-- pandas.api.types.is_bool_dtype. -/
def is_bool_dtype : NpDtype → Bool
  | .bool_ => true
  | _ => false

/-- pandas.api.types.is_datetime64_any_dtype. -/
def is_datetime64_any_dtype : NpDtype → Bool
  | .datetime => true
  | _ => false

/-- pandas.api.types.is_categorical_dtype. -/
def is_categorical_dtype : NpDtype → Bool
  | .categorical => true
  | _ => false

/-- np.issubdtype(dtype, np.integer). -/
def issubdtype_integer : NpDtype → Bool
  | .int_ => true
  | _ => false

/-- np.issubdtype(dtype, np.floating). -/
def issubdtype_floating : NpDtype → Bool
  | .float_ => true
  | _ => false

/-- np.issubdtype(dtype, np.bool_). -/
def issubdtype_bool : NpDtype → Bool
  | .bool_ => true
  | _ => false

/-- np.issubdtype(dtype, np.datetime64). -/
def issubdtype_datetime64 : NpDtype → Bool
  | .datetime => true
  | _ => false

/-- np.issubdtype(dtype, np.object_). -/
def issubdtype_object : NpDtype → Bool
  | .object_ => true
  | _ => false

/-- np.issubdtype(dtype, np.str_). -/
def issubdtype_str : NpDtype → Bool
  | .string_ => true
  | _ => false

/-- The `Dtypes` enum from `schema/enums.py`; the member INTERGER is spelled as
in the source. -/
inductive Dtypes where
  | INTERGER
  | FLOAT
  | BOOLEAN
  | CATEGORICAL
  | DATE
deriving DecidableEq, Repr

/-- Display name of a `Dtypes` member (`.name` in the source). -/
def dtypeName : Dtypes → String
  | .INTERGER => "INTERGER"
  | .FLOAT => "FLOAT"
  | .BOOLEAN => "BOOLEAN"
  | .CATEGORICAL => "CATEGORICAL"
  | .DATE => "DATE"

/-- The `ColumnType` enum from `schema/enums.py`. -/
inductive ColumnType where
  | FEATURES
  | TARGET
  | INDEX
  | UNIQUEID
deriving DecidableEq, Repr

/-- The `FeatureType` enum from `schema/enums.py`.  Note that it has NO member
named TARGET; this matters for the single-unique-value branch of the column
descriptor builder. -/
inductive FeatureType where
  | Ordinal
  | Nominal
  | Continuous
  | constant
deriving DecidableEq, Repr

/-- The `ImputationScheme` enum from `schema/enums.py`. -/
inductive ImputationScheme where
  | MEAN
  | MEDIAN
  | MODE
  | VALUE
deriving DecidableEq, Repr

/-- String tag of an imputation scheme (`.value` in the source). -/
def schemeStr : ImputationScheme → String
  | .MEAN => "mean"
  | .MEDIAN => "median"
  | .MODE => "mode"
  | .VALUE => "value"

/-- Python exceptions raised by the code under study.  `valueErrorFrom` models
`raise ValueError(msg) from cause`; `dtypeMismatch` models the detailed
ValueError whose message interpolates the fit-time and transform-time dtype
series (carried structurally here). -/
inductive Err where
  | typeError (msg : String)
  | valueError (msg : String)
  | keyError (msg : String)
  | attributeError (msg : String)
  | notFittedError
  | valueErrorFrom (msg : String) (cause : Err)
  | dtypeMismatch (fitTypes transformTypes : List (String × NpDtype))
deriving DecidableEq, Repr

/-- `Dtypes.from_nptype` from `schema/enums.py`: an if-chain over the numpy and
pandas dtype predicates, first match wins. -/
def Dtypes.from_nptype (dtype : NpDtype) : Except Err Dtypes :=
  if is_categorical_dtype dtype then .ok .CATEGORICAL
  else if issubdtype_integer dtype then .ok .INTERGER
  else if issubdtype_floating dtype then .ok .FLOAT
  else if issubdtype_bool dtype then .ok .BOOLEAN
  else if issubdtype_datetime64 dtype then .ok .DATE
  else if issubdtype_object dtype || issubdtype_str dtype then .ok .CATEGORICAL
  else
    .error (Err.valueError (s!"Unsupported dtype: {npDtypeName dtype}"))

/-- Specification-side restatement of the `from_nptype` contract, written from
the claim text: one result per storage type, decided by the first matching
rule, with an UnsupportedType failure naming the offending type otherwise. -/
def from_nptype_spec (dtype : NpDtype) : Except Err Dtypes :=
  match dtype with
  | .categorical => .ok .CATEGORICAL
  | .int_ => .ok .INTERGER
  | .float_ => .ok .FLOAT
  | .bool_ => .ok .BOOLEAN
  | .datetime => .ok .DATE
  | .object_ => .ok .CATEGORICAL
  | .string_ => .ok .CATEGORICAL
  | .other n => .error (Err.valueError (s!"Unsupported dtype: {n}"))

deriving instance DecidableEq for Except

/-- One cell value of a dataframe column. -/
inductive Value where
  | vInt (i : Int)
  | vFloat (q : ℚ)
  | vBool (b : Bool)
  | vStr (s : String)
  | vDate (t : Int)
deriving DecidableEq, Repr

/-- Numeric view of a value, as used by pandas mean/median on numeric columns
(bool counts as 1/0). -/
def toRat : Value → ℚ
  | .vInt i => (i : ℚ)
  | .vFloat q => q
  | .vBool b => if b then 1 else 0
  | .vStr _ => 0
  | .vDate t => (t : ℚ)

/-- Ascending order used by pandas `mode()` to sort its result.  Columns are
homogeneous, so only the same-constructor cases are exercised. -/
def vle (a b : Value) : Bool :=
  match a, b with
  | .vStr s, .vStr t => decide (s ≤ t)
  | .vStr _, _ => false
  | _, .vStr _ => true
  | x, y => decide (toRat x ≤ toRat y)

/-- The non-missing entries of a column. -/
def nonNullCells (cells : List (Option Value)) : List Value :=
  cells.filterMap id

/-- Series.count(): number of non-missing entries. -/
def ccount (cells : List (Option Value)) : Nat :=
  (nonNullCells cells).length

/-- Series.isna().sum(): number of missing entries. -/
def nullCount (cells : List (Option Value)) : Nat :=
  cells.countP (fun c => c.isNone)

/-- Series.nunique(): number of distinct non-missing values. -/
def nuniqueOf (cells : List (Option Value)) : Nat :=
  (nonNullCells cells).dedup.length

/-- Insertion step for sorting rationals ascending. -/
def insertRat (x : ℚ) : List ℚ → List ℚ
  | [] => [x]
  | y :: ys => if x ≤ y then x :: y :: ys else y :: insertRat x ys

/-- Insertion sort of rationals, ascending. -/
def sortRats (l : List ℚ) : List ℚ :=
  l.foldr insertRat []

/-- Insertion step for sorting values ascending by `vle`. -/
def insertVal (x : Value) : List Value → List Value
  | [] => [x]
  | y :: ys => if vle x y then x :: y :: ys else y :: insertVal x ys

/-- Insertion sort of values, ascending by `vle`. -/
def sortVals (l : List Value) : List Value :=
  l.foldr insertVal []

/-- Series.mean(): `none` models the NaN float produced on an all-null column
(observationally irrelevant: the builder fails at `mode()[0]` before returning
in that case). -/
def pmean (cells : List (Option Value)) : Option ℚ :=
  match nonNullCells cells with
  | [] => none
  | vs => some ((vs.map toRat).sum / vs.length)

/-- Median of a nonempty list of rationals, pandas style: middle element for
odd length, average of the two middle elements for even length. -/
def pmedianList (vs : List ℚ) : ℚ :=
  let sorted := sortRats vs
  if vs.length % 2 = 1 then sorted.getD (vs.length / 2) 0
  else (sorted.getD (vs.length / 2 - 1) 0 + sorted.getD (vs.length / 2) 0) / 2

/-- Series.median(): `none` models the NaN produced on an all-null column. -/
def pmedian (cells : List (Option Value)) : Option ℚ :=
  match (nonNullCells cells).map toRat with
  | [] => none
  | vs => some (pmedianList vs)

/-- Series.mode(): the distinct non-null values of maximal frequency, sorted
ascending. -/
def modeList (cells : List (Option Value)) : List Value :=
  let vs := nonNullCells cells
  let uniq := vs.dedup
  let best := (uniq.map (fun v => vs.count v)).foldr max 0
  sortVals (uniq.filter (fun v => vs.count v == best))

/-- Series.mode()[0]: `none` models the KeyError raised by indexing the empty
mode series of an all-null column. -/
def pmode (cells : List (Option Value)) : Option Value :=
  (modeList cells).head?

/-- One named, typed dataframe column. -/
structure Column where
  name : String
  dtype : NpDtype
  cells : List (Option Value)
deriving DecidableEq, Repr

/-- A dataframe: an ordered sequence of named columns (assumed rectangular). -/
structure DataFrame where
  columns : List Column
deriving DecidableEq, Repr

/-- dataset.columns: the column names, in order. -/
def colNames (d : DataFrame) : List String :=
  d.columns.map (fun c => c.name)

/-- X.dtypes: the name-to-storage-type series, in column order. -/
def dtypesOf (d : DataFrame) : List (String × NpDtype) :=
  d.columns.map (fun c => (c.name, c.dtype))

/-- X.dtypes[n]: storage type of the first column named n, if any. -/
def lookupDtype (d : DataFrame) (n : String) : Option NpDtype :=
  ((dtypesOf d).find? (fun p => p.fst == n)).map (fun p => p.snd)

/-- Number of rows (length of the first column; rectangularity assumed). -/
def nrows (d : DataFrame) : Nat :=
  ((d.columns.head?).map (fun c => c.cells.length)).getD 0

/-- X.empty: true when any axis has length zero. -/
def isEmptyDf (d : DataFrame) : Bool :=
  nrows d == 0 || d.columns.length == 0

/-- Helper for duplicate column names: walk the names keeping the set already
seen, emitting every name that repeats an earlier one. -/
def dupNamesAux : List String → List String → List String
  | _, [] => []
  | seen, n :: rest =>
    if n ∈ seen then n :: dupNamesAux seen rest
    else dupNamesAux (n :: seen) rest

/-- dataset.columns[dataset.columns.duplicated()]: names of columns whose name
repeats an earlier column name (name-based, first occurrence excluded). -/
def dupColNames (d : DataFrame) : List String :=
  dupNamesAux [] (colNames d)

/-- Row i of the frame, as one optional value per column. -/
def rowAt (d : DataFrame) (i : Nat) : List (Option Value) :=
  d.columns.map (fun c => c.cells.getD i none)

/-- dataset[dataset.duplicated()].index: indices of rows equal to an earlier
row (first occurrence excluded). -/
def dupRowIndices (d : DataFrame) : List Nat :=
  (List.range (nrows d)).filter
    (fun i => (List.range i).any (fun j => decide (rowAt d j = rowAt d i)))

/-- The `ColumnDescriptor` pydantic model from `schema/descriptors.py`.  Field
names (including the unique_valus typo) follow the source.  The mean and
median floats are modelled as rationals. -/
structure ColumnDescriptor where
  name : String
  col_type : ColumnType
  dtype : Dtypes
  feature_type : FeatureType
  count : Nat
  mean : Option ℚ
  median : Option ℚ
  mode : Option Value
  null_count : Nat
  unique_valus : Nat
  imputation_scheme : Option ImputationScheme
  imputation_value : Option Value
  is_selected : Bool
deriving DecidableEq, Repr

/-- isinstance(v, (int, float)); Python bool is a subclass of int, so boolean
values pass this check as well. -/
def isinstance_int_float : Option Value → Bool
  | some (.vInt _) | some (.vFloat _) | some (.vBool _) => true
  | _ => false

/-- isinstance(v, str). -/
def isinstance_str : Option Value → Bool
  | some (.vStr _) => true
  | _ => false

/-- isinstance(v, bool). -/
def isinstance_bool : Option Value → Bool
  | some (.vBool _) => true
  | _ => false

/-- Error raised when an imputation scheme is invalid for a dtype. -/
def impSchemeErr (s : Option ImputationScheme) (d : Dtypes) : Err :=
  let t := (s.map schemeStr).getD "None"
  let dn := dtypeName d
  Err.valueError (s!"imputation_scheme {t} is not valid for Dtypes {dn}")

/-- Error raised when an imputation value has the wrong runtime type. -/
def impValueErr (d : Dtypes) : Err :=
  let dn := dtypeName d
  Err.valueError (s!"imputation_value is not valid for Dtypes {dn}")

/-- The model_validator of `ColumnDescriptor` (the source method is named
imputation_scheme, shadowing the field; Lean requires a distinct name): checks
the imputation scheme and value against the dtype. -/
def validate_imputation (values : ColumnDescriptor) : Except Err Unit :=
  if values.dtype = Dtypes.INTERGER ∨ values.dtype = Dtypes.FLOAT then
    if values.imputation_scheme = some ImputationScheme.MODE then
      .error (impSchemeErr values.imputation_scheme values.dtype)
    else if values.imputation_scheme = some ImputationScheme.VALUE ∧
        isinstance_int_float values.imputation_value = false then
      .error (impValueErr values.dtype)
    else .ok ()
  else if values.dtype = Dtypes.CATEGORICAL then
    if values.imputation_scheme = some ImputationScheme.MEAN ∨
        values.imputation_scheme = some ImputationScheme.MEDIAN then
      .error (impSchemeErr values.imputation_scheme values.dtype)
    else if values.imputation_scheme = some ImputationScheme.VALUE ∧
        isinstance_str values.imputation_value = false then
      .error (impValueErr values.dtype)
    else .ok ()
  else if values.dtype = Dtypes.BOOLEAN ∨ values.dtype = Dtypes.DATE then
    if values.imputation_scheme = some ImputationScheme.MEAN ∨
        values.imputation_scheme = some ImputationScheme.MEDIAN then
      .error (impSchemeErr values.imputation_scheme values.dtype)
    else if values.imputation_scheme = some ImputationScheme.VALUE ∧
        isinstance_bool values.imputation_value = false then
      .error (impValueErr values.dtype)
    else .ok ()
  else .ok ()

/-- pydantic construction of a `ColumnDescriptor`: run the after-validator,
then return the record; a raised ValueError surfaces as a failure. -/
def mkColumnDescriptor (f : ColumnDescriptor) : Except Err ColumnDescriptor :=
  match validate_imputation f with
  | .error e => .error e
  | .ok _ => .ok f

/-- dataset[colname] materialised as a single Series.  A missing name raises
KeyError.  A duplicated name yields a two-column frame, whose `.count()` is a
Series; the `.item()` call in the first statement of the builder then raises
ValueError, modelled here at selection time since no other observation of the
selection happens first. -/
def getSingleColumn (d : DataFrame) (colname : String) : Except Err Column :=
  match d.columns.filter (fun c => c.name == colname) with
  | [c] => .ok c
  | [] => .error (Err.keyError colname)
  | _ => .error (Err.valueError "can only convert an array of size 1 to a Python scalar")

/-- Statistics produced by the dtype-directed branch of the column builder. -/
structure BranchOut where
  mean : Option ℚ
  median : Option ℚ
  mode : Option Value
  feature_type : FeatureType
  dtypes : Dtypes
deriving DecidableEq, Repr

/-- The dtype-directed branch of `ColumnDescriptor.build_from_dataset`
(lines 36-59 of `schema/descriptors.py`): numeric columns (pandas counts bool
as numeric) get Continuous with mean/median/mode; string-like columns get
Ordinal with mode only; datetime columns get Nominal with no statistics;
anything else raises the UnsupportedDtype ValueError. -/
def branchStats (col : Column) : Except Err BranchOut :=
  if is_numeric_dtype col.dtype then
    match pmode col.cells with
    | none => .error (Err.keyError "0")
    | some m =>
      match Dtypes.from_nptype col.dtype with
      | .error e => .error e
      | .ok dt =>
        .ok { mean := pmean col.cells, median := pmedian col.cells,
              mode := some m, feature_type := FeatureType.Continuous, dtypes := dt }
  else if is_string_dtype col.dtype || is_bool_dtype col.dtype then
    match pmode col.cells with
    | none => .error (Err.keyError "0")
    | some m =>
      if is_categorical_dtype col.dtype then
        .ok { mean := none, median := none, mode := some m,
              feature_type := FeatureType.Ordinal, dtypes := Dtypes.CATEGORICAL }
      else
        match Dtypes.from_nptype col.dtype with
        | .error e => .error e
        | .ok dt =>
          .ok { mean := none, median := none, mode := some m,
                feature_type := FeatureType.Ordinal, dtypes := dt }
  else if is_datetime64_any_dtype col.dtype then
    match Dtypes.from_nptype col.dtype with
    | .error e => .error e
    | .ok dt =>
      .ok { mean := none, median := none, mode := none,
            feature_type := FeatureType.Nominal, dtypes := dt }
  else
    .error (Err.valueError (s!"Unsupported dtype {npDtypeName col.dtype}"))

/-- The AttributeError raised by evaluating FeatureType.TARGET, which does not
exist (line 63 of `schema/descriptors.py`). -/
def featureTypeAttrErr : Err :=
  Err.attributeError "type object FeatureType has no attribute TARGET"

/-- `ColumnDescriptor.build_from_dataset` (`schema/descriptors.py` 33-80).
When the column has exactly one distinct non-null value the source executes
`if column_type == FeatureType.TARGET`; `FeatureType` has no member TARGET, so
Python raises AttributeError before any comparison, for feature and target
columns alike, and the `constant` override below that line is unreachable. -/
def ColumnDescriptor.build_from_dataset (dataset : DataFrame) (colname : String)
    (target_columns : List String) : Except Err ColumnDescriptor :=
  match getSingleColumn dataset colname with
  | .error e => .error e
  | .ok col =>
    match branchStats col with
    | .error e => .error e
    | .ok bo =>
      let column_type :=
        if colname ∈ target_columns then ColumnType.TARGET else ColumnType.FEATURES
      let unique_valus := nuniqueOf col.cells
      if unique_valus = 1 then
        .error featureTypeAttrErr
      else
        mkColumnDescriptor
          { name := colname
            col_type := column_type
            dtype := bo.dtypes
            feature_type := bo.feature_type
            count := ccount col.cells
            mean := bo.mean
            median := bo.median
            mode := bo.mode
            null_count := nullCount col.cells
            unique_valus := unique_valus
            imputation_scheme := none
            imputation_value := none
            is_selected := true }

/-- The `DatasetDescriptor` pydantic model (field name cloumns_info as in the
source). -/
structure DatasetDescriptor where
  row_count : Nat
  cloumns_info : List ColumnDescriptor
  duplicate_rows : List Nat
  duplicate_columns : List String
deriving DecidableEq, Repr

/-- The per-column loop of `DatasetDescriptor.build_from_dataset`: build one
descriptor per column name, stopping at the first failure. -/
def buildColumnsInfo (dataset : DataFrame) (target_columns : List String) :
    List String → Except Err (List ColumnDescriptor)
  | [] => .ok []
  | n :: rest =>
    match ColumnDescriptor.build_from_dataset dataset n target_columns with
    | .error e => .error e
    | .ok d =>
      match buildColumnsInfo dataset target_columns rest with
      | .error e => .error e
      | .ok ds => .ok (d :: ds)

/-- `DatasetDescriptor.build_from_dataset` (`schema/descriptors.py` 115-129). -/
def DatasetDescriptor.build_from_dataset (dataset : DataFrame)
    (target_columns : List String) : Except Err DatasetDescriptor :=
  match buildColumnsInfo dataset target_columns (colNames dataset) with
  | .error e => .error e
  | .ok infos =>
    .ok { row_count := nrows dataset
          cloumns_info := infos
          duplicate_rows := dupRowIndices dataset
          duplicate_columns := dupColNames dataset }

/-- Input handed to a transformer: a pandas DataFrame, a 2D numeric array, or
something that is neither (no shape, no dtypes attribute). -/
inductive Input where
  | df (d : DataFrame)
  | arr (rows : List (List ℚ))
  | other
deriving DecidableEq, Repr

/-- Whether the input is a pandas DataFrame. -/
def Input.isDf : Input → Bool
  | .df _ => true
  | _ => false

/-- The WrongInputType failure of `check_X_for_type`. -/
def wrongInputTypeErr : Err :=
  Err.typeError "Provided variable X is not of type pandas.DataFrame"

/-- The EmptyInput failure of `check_X_for_type`. -/
def emptyInputErr : Err :=
  Err.valueError "Provided variable X is an empty DataFrame"

/-- `check_X_for_type` from `common.py`: TypeError for non-frames, ValueError
for empty frames.  Returns the frame for convenience (the source returns
nothing and callers keep using X). -/
def check_X_for_type (X : Input) : Except Err DataFrame :=
  match X with
  | .df d => if isEmptyDf d then .error emptyInputErr else .ok d
  | _ => .error wrongInputTypeErr

/-- The EmptyColumnList failure of `check_column_length`. -/
def emptyColumnListErr : Err :=
  Err.valueError "Expected columns to be at least of length 1, found length of 0 instead"

/-- `check_column_length` from `common.py`. -/
def check_column_length (columns : List String) : Except Err Unit :=
  if columns.length = 0 then .error emptyColumnListErr else .ok ()

/-- The columns argument of the selector transformers: a single name or a list
of names. -/
inductive ColsParam where
  | str (s : String)
  | list (l : List String)
deriving DecidableEq, Repr

/-- `as_list` from `common.py`, on the string-or-list union used here. -/
def as_list : ColsParam → List String
  | .str s => [s]
  | .list l => l

/-- Python truthiness of the raw columns parameter (empty string and empty
list are falsy). -/
def truthy : ColsParam → Bool
  | .str s => !(s == "")
  | .list l => !l.isEmpty

/-- Fitted state of `ColumnDropper`. -/
structure ColumnDropperFitted where
  columns_ : List String
  feature_names_ : List String
deriving DecidableEq, Repr

/-- The KeyError raised when requested columns are absent from the frame. -/
def missingColumnErr : Err :=
  Err.keyError "column(s) not in DataFrame"

/-- `ColumnDropper.fit` (`transformer.py` 22-37): resolve the drop-list, check
the input frame, check the names exist, record the retained names and fail if
nothing would remain. -/
def ColumnDropper.fit (columns : ColsParam) (X : Input) :
    Except Err ColumnDropperFitted :=
  let columns_ := as_list columns
  match check_X_for_type X with
  | .error e => .error e
  | .ok d =>
    if columns_.any (fun c => !((colNames d).contains c)) then
      .error missingColumnErr
    else
      let feature_names_ :=
        (d.columns.filter (fun c => !(columns_.contains c.name))).map (fun c => c.name)
      if feature_names_.length = 0 then
        .error (Err.valueError "Dropping these columns would result in an empty output DataFrame")
      else .ok { columns_ := columns_, feature_names_ := feature_names_ }

/-- `ColumnDropper.transform` (`transformer.py` 39-49): check fitted, check the
input frame, then drop the stored columns (returning X untouched when the
stored drop-list is empty). -/
def ColumnDropper.transform (fitted : Option ColumnDropperFitted) (X : Input) :
    Except Err Input :=
  match fitted with
  | none => .error Err.notFittedError
  | some st =>
    match check_X_for_type X with
    | .error e => .error e
    | .ok d =>
      if st.columns_ ≠ [] then
        if st.columns_.any (fun c => !((colNames d).contains c)) then
          .error (Err.keyError "column(s) not found in axis")
        else
          .ok (Input.df { columns := d.columns.filter (fun c => !(st.columns_.contains c.name)) })
      else .ok X

/-- Fitted state of `PandasTypeSelector`. -/
structure PTSFitted where
  X_dtypes_ : List (String × NpDtype)
  feature_names_ : List String
deriving DecidableEq, Repr

/-- `DataFrame.select_dtypes(include, exclude)`: keep the columns whose storage
type is in include (when given) and not in exclude; both missing is an error,
as is an overlap between the two. -/
def select_dtypes (include_ exclude : Option (List NpDtype)) (d : DataFrame) :
    Except Err (List Column) :=
  let inc := include_.getD []
  let exc := exclude.getD []
  if inc.isEmpty && exc.isEmpty then
    .error (Err.valueError "at least one of include or exclude must be nonempty")
  else if inc.any (fun t => exc.contains t) then
    .error (Err.valueError "include and exclude overlap")
  else
    .ok (d.columns.filter (fun c =>
      (inc.isEmpty || inc.contains c.dtype) && !(exc.contains c.dtype)))

/-- `PandasTypeSelector.fit` (`transformer.py` 99-128): check the input frame,
record every dtype, record the filtered names, fail if the filter selects
nothing. -/
def PandasTypeSelector.fit (include_ exclude : Option (List NpDtype)) (X : Input) :
    Except Err PTSFitted :=
  match check_X_for_type X with
  | .error e => .error e
  | .ok d =>
    match select_dtypes include_ exclude d with
    | .error e => .error e
    | .ok sel =>
      let feature_names_ := sel.map (fun c => c.name)
      if feature_names_.length = 0 then
        .error (Err.valueError "Provided type(s) results in empty dataframe")
      else .ok { X_dtypes_ := dtypesOf d, feature_names_ := feature_names_ }

/-- The generic message of the re-raised ValueError in
`PandasTypeSelector.transform`. -/
def columnsNotEqualMsg : String :=
  "Columns were not equal during fit and transform"

/-- `PandasTypeSelector.transform` (`transformer.py` 134-170).  The dtype
comparison runs before `check_X_for_type`: on a non-frame, the `X.dtypes`
attribute access raises AttributeError, which the `except ValueError` does not
catch.  A label mismatch makes the pandas series comparison itself raise, and
a dtype mismatch raises the detailed error; both are caught and re-raised as
the generic ValueError with the original as cause. -/
def PandasTypeSelector.transform (include_ exclude : Option (List NpDtype))
    (fitted : Option PTSFitted) (X : Input) : Except Err Input :=
  match fitted with
  | none => .error Err.notFittedError
  | some st =>
    match X with
    | .df d =>
      if (dtypesOf d).map Prod.fst ≠ st.X_dtypes_.map Prod.fst then
        .error (Err.valueErrorFrom columnsNotEqualMsg
          (Err.valueError "Can only compare identically-labeled Series objects"))
      else if st.X_dtypes_ ≠ dtypesOf d then
        .error (Err.valueErrorFrom columnsNotEqualMsg
          (Err.dtypeMismatch st.X_dtypes_ (dtypesOf d)))
      else
        match check_X_for_type (Input.df d) with
        | .error e => .error e
        | .ok d2 =>
          match select_dtypes include_ exclude d2 with
          | .error e => .error e
          | .ok sel => .ok (Input.df { columns := sel })
    | _ => .error (Err.attributeError "dtypes")

/-- `ColumnSelector.fit` (`transformer.py` 198-231): resolve the list, reject
an empty list, check the input frame, check the names exist. -/
def ColumnSelector.fit (columns : ColsParam) (X : Input) :
    Except Err (List String) :=
  let columns_ := as_list columns
  match check_column_length columns_ with
  | .error e => .error e
  | .ok _ =>
    match check_X_for_type X with
    | .error e => .error e
    | .ok d =>
      if columns_.any (fun c => !((colNames d).contains c)) then
        .error missingColumnErr
      else .ok columns_

/-- `ColumnSelector.transform` (`transformer.py` 233-254): check the input
frame, then `if self.columns: return X[self.columns_]` — there is no
check_is_fitted, so before fit the `self.columns_` attribute access raises
AttributeError (and with a falsy columns parameter X is returned as is). -/
def ColumnSelector.transform (columns : ColsParam) (fitted : Option (List String))
    (X : Input) : Except Err Input :=
  match check_X_for_type X with
  | .error e => .error e
  | .ok d =>
    if truthy columns then
      match fitted with
      | none => .error (Err.attributeError "columns_")
      | some cols_ =>
        if cols_.any (fun c => !((colNames d).contains c)) then
          .error (Err.keyError "column(s) not in index")
        else
          .ok (Input.df
            { columns := cols_.filterMap (fun n => d.columns.find? (fun c => c.name == n)) })
    else .ok X

/-- numpy shape of an input: frames and arrays have one, anything else raises
AttributeError. -/
def getShape (X : Input) : Except Err (Nat × Nat) :=
  match X with
  | .df d => .ok (nrows d, d.columns.length)
  | .arr rows => .ok (rows.length, ((rows.head?).map List.length).getD 0)
  | .other => .error (Err.attributeError "shape")

/-- Width of a 2D array (length of the first row). -/
def arrWidth (rows : List (List ℚ)) : Nat :=
  ((rows.head?).map List.length).getD 0

/-- sklearn `check_array` with default arguments, as used by
`IdentityTransformer`: converts the input to a finite 2D float array, raising
ValueError on non-numeric data, missing values, ragged rows, empty axes or
non-array input. -/
def check_array (X : Input) : Except Err Input :=
  match X with
  | .df d =>
    if d.columns.any (fun c => !(is_numeric_dtype c.dtype)) then
      .error (Err.valueError "could not convert string to float")
    else if d.columns.any (fun c => c.cells.any (fun x => x.isNone)) then
      .error (Err.valueError "Input contains NaN")
    else if nrows d = 0 then
      .error (Err.valueError "Found array with 0 sample(s)")
    else if d.columns.length = 0 then
      .error (Err.valueError "Found array with 0 feature(s)")
    else
      .ok (Input.arr ((List.range (nrows d)).map
        (fun i => (rowAt d i).map (fun oc => toRat (oc.getD (Value.vInt 0))))))
  | .arr rows =>
    if rows.any (fun r => r.length != arrWidth rows) then
      .error (Err.valueError "setting an array element with a sequence")
    else if rows.length = 0 then
      .error (Err.valueError "Found array with 0 sample(s)")
    else if arrWidth rows = 0 then
      .error (Err.valueError "Found array with 0 feature(s)")
    else .ok (Input.arr rows)
  | .other => .error (Err.valueError "Expected 2D array, got scalar array instead")

/-- `IdentityTransformer.fit` (`transformer.py` 291-309): optionally validate
through check_array, then record `X.shape` (AttributeError when the input has
no shape). -/
def IdentityTransformer.fit (check_X : Bool) (X : Input) :
    Except Err (Nat × Nat) :=
  match (if check_X then check_array X else .ok X) with
  | .error e => .error e
  | .ok X2 => getShape X2

/-- `IdentityTransformer.transform` (`transformer.py` 311-336): optionally
validate, check fitted, then compare the column count with fit time. -/
def IdentityTransformer.transform (check_X : Bool) (fitted : Option (Nat × Nat))
    (X : Input) : Except Err Input :=
  match (if check_X then check_array X else .ok X) with
  | .error e => .error e
  | .ok X2 =>
    match fitted with
    | none => .error Err.notFittedError
    | some nf =>
      match getShape X2 with
      | .error e => .error e
      | .ok sh =>
        if sh.2 ≠ nf.2 then
          .error (Err.valueError "Wrong shape is passed to transform")
        else .ok X2

/-- A one-column frame: integer column a with values 1, 2. -/
def dfA1 : DataFrame :=
  { columns := [{ name := "a", dtype := NpDtype.int_,
                  cells := [some (Value.vInt 1), some (Value.vInt 2)] }] }

/-- The single column of `dfA1`. -/
def colA1 : Column :=
  { name := "a", dtype := NpDtype.int_,
    cells := [some (Value.vInt 1), some (Value.vInt 2)] }

/-- The descriptor the builder produces for column a of `dfA1` (mean and
median both evaluate to 3/2, the mode to 1; the statistics fields are written
through the model functions so that the record is definitionally the builder
output). -/
def descA1 : ColumnDescriptor :=
  { name := "a", col_type := ColumnType.FEATURES, dtype := Dtypes.INTERGER,
    feature_type := FeatureType.Continuous, count := 2,
    mean := pmean colA1.cells, median := pmedian colA1.cells,
    mode := pmode colA1.cells, null_count := 0, unique_valus := 2,
    imputation_scheme := none, imputation_value := none, is_selected := true }

/-- The dataset descriptor built from `dfA1` with no targets. -/
def ddA1 : DatasetDescriptor :=
  { row_count := 2, cloumns_info := [descA1],
    duplicate_rows := [], duplicate_columns := [] }

/-- A frame whose only column holds the constant value 5 three times. -/
def dsConst : DataFrame :=
  { columns := [{ name := "a", dtype := NpDtype.int_,
                  cells := [some (Value.vInt 5), some (Value.vInt 5), some (Value.vInt 5)] }] }

/-- A frame with a single boolean column b = [true, false, true]. -/
def dfB : DataFrame :=
  { columns := [{ name := "b", dtype := NpDtype.bool_,
                  cells := [some (Value.vBool true), some (Value.vBool false),
                            some (Value.vBool true)] }] }

/-- The single column of `dfB`. -/
def colB : Column :=
  { name := "b", dtype := NpDtype.bool_,
    cells := [some (Value.vBool true), some (Value.vBool false), some (Value.vBool true)] }

/-- The descriptor the builder produces for the boolean column of `dfB`:
pandas treats bool as numeric, so the column lands in the Continuous branch
with mean 2/3, median 1 and mode true all populated. -/
def descB : ColumnDescriptor :=
  { name := "b", col_type := ColumnType.FEATURES, dtype := Dtypes.BOOLEAN,
    feature_type := FeatureType.Continuous, count := 3,
    mean := pmean colB.cells, median := pmedian colB.cells,
    mode := pmode colB.cells, null_count := 0, unique_valus := 2,
    imputation_scheme := none, imputation_value := none, is_selected := true }

/-- A frame with two integer columns that are both named x. -/
def dfXX : DataFrame :=
  { columns :=
      [{ name := "x", dtype := NpDtype.int_,
         cells := [some (Value.vInt 1), some (Value.vInt 2)] },
       { name := "x", dtype := NpDtype.int_,
         cells := [some (Value.vInt 3), some (Value.vInt 4)] }] }

/-- The ValueError raised by `.item()` on a Series of size two. -/
def itemSizeErr : Err :=
  Err.valueError "can only convert an array of size 1 to a Python scalar"

/-- A one-column integer frame used as the fit-time frame for the type
selector. -/
def dfN1 : DataFrame :=
  { columns := [{ name := "a", dtype := NpDtype.int_, cells := [some (Value.vInt 1)] }] }

/-- The same frame with the storage type of column a changed to float. -/
def dfN2 : DataFrame :=
  { columns := [{ name := "a", dtype := NpDtype.float_, cells := [some (Value.vFloat 1)] }] }

/-- The fitted state of PandasTypeSelector(include=[int]) on `dfN1`. -/
def stN : PTSFitted :=
  { X_dtypes_ := [("a", NpDtype.int_)], feature_names_ := ["a"] }

/-- A frame with one integer column and zero rows. -/
def dfEmpty : DataFrame :=
  { columns := [{ name := "a", dtype := NpDtype.int_, cells := [] }] }

/-- A descriptor with an imputation scheme that is invalid for its dtype
(integer dtype with MODE imputation). -/
def fC8 : ColumnDescriptor :=
  { descA1 with imputation_scheme := some ImputationScheme.MODE }

/-- Whether pydantic construction failed with a ValueError. -/
def isValueError {α : Type} : Except Err α → Bool
  | .error (Err.valueError _) => true
  | _ => false

/-- Runtime-type mismatch between an imputation value and what the VALUE
scheme requires for a dtype, mirroring the isinstance checks of the
model_validator. -/
def valueTypeMismatch (d : Dtypes) (v : Option Value) : Bool :=
  match d with
  | .INTERGER | .FLOAT => !(isinstance_int_float v)
  | .CATEGORICAL => !(isinstance_str v)
  | .BOOLEAN | .DATE => !(isinstance_bool v)

/-- Claim C5: for every native storage type, `Dtypes.from_nptype` returns
exactly one value, decided by the first matching rule in the listed order:
categorical storage, then integer, floating, boolean and datetime subtypes,
then generic object or string storage, all mapping as the claim states; any
other type fails with the UnsupportedType error naming the offending type. -/
theorem claim_c5_from_nptype_total (t : NpDtype) :
    Dtypes.from_nptype t = from_nptype_spec t := by
  cases t <;> rfl

/-- Claim C1 (code bug): the claim says a single-unique-value FEATURES column
gets feature_type constant and a single-unique-value TARGET column fails with
InvalidTarget; the code instead raises AttributeError in both cases, because
line 63 compares the column type against FeatureType.TARGET and FeatureType
has no member named TARGET.  Evaluated at the failing input, the constant
column a = [5, 5, 5]. -/
theorem claim_c1_constant_column_crashes :
    ColumnDescriptor.build_from_dataset dsConst "a" [] = .error featureTypeAttrErr ∧
    ColumnDescriptor.build_from_dataset dsConst "a" ["a"] = .error featureTypeAttrErr ∧
    featureTypeAttrErr ≠ Err.valueError "Target column a has only one unique value" := by
  refine ⟨by decide, by decide, by decide⟩

/-- Claim C4 (code bug): on a frame with two columns both named x, the
duplicate-column computation alone does yield ["x"], but
DatasetDescriptor.build_from_dataset does not succeed: profiling a duplicated
name selects a two-column frame, whose count() is a Series, and the .item()
call raises ValueError. -/
theorem claim_c4_duplicate_columns_crash :
    dupColNames dfXX = ["x"] ∧
    DatasetDescriptor.build_from_dataset dfXX [] = .error itemSizeErr := by
  refine ⟨by decide, by decide⟩

/-- Claim C2 counterexample: a boolean-typed, non-constant column is claimed
to receive feature_type Ordinal with mean and median null; the builder instead
returns Continuous with a populated mean, because pandas is_numeric_dtype is
true for bool and the numeric branch runs first.  Column b = [true, false,
true]. -/
theorem claim_c2_counterexample :
    ColumnDescriptor.build_from_dataset dfB "b" [] = .ok descB ∧
    descB.feature_type = FeatureType.Continuous ∧
    descB.feature_type ≠ FeatureType.Ordinal ∧
    descB.mean.isSome = true ∧ descB.median.isSome = true :=
  ⟨rfl, rfl, by decide, by decide, by decide⟩

/-- The validator accepts any descriptor whose imputation scheme is unset, as
produced by the builder. -/
theorem validate_imputation_none (f : ColumnDescriptor)
    (h : f.imputation_scheme = none) : validate_imputation f = .ok () := by
  unfold validate_imputation
  rw [h]
  split_ifs with h1 h2 h3 h4 h5 h6 h7 h8 h9 <;> simp_all

/-- pydantic construction succeeds verbatim when the imputation scheme is
unset. -/
theorem mkColumnDescriptor_none_ok (f : ColumnDescriptor)
    (h : f.imputation_scheme = none) : mkColumnDescriptor f = .ok f := by
  unfold mkColumnDescriptor
  rw [validate_imputation_none f h]

/-- mode()[0] only succeeds on a column with at least one non-null value. -/
theorem pmode_some_nonNull (cells : List (Option Value)) (m : Value)
    (h : pmode cells = some m) : nonNullCells cells ≠ [] := by
  intro he
  unfold pmode modeList at h
  rw [he] at h
  simp [sortVals] at h

/-- mean() is populated whenever the column has a non-null value. -/
theorem pmean_isSome (cells : List (Option Value))
    (h : nonNullCells cells ≠ []) : (pmean cells).isSome = true := by
  unfold pmean
  cases hv : nonNullCells cells with
  | nil => exact absurd hv h
  | cons a l => rfl

/-- median() is populated whenever the column has a non-null value. -/
theorem pmedian_isSome (cells : List (Option Value))
    (h : nonNullCells cells ≠ []) : (pmedian cells).isSome = true := by
  unfold pmedian
  cases hv : nonNullCells cells with
  | nil => exact absurd hv h
  | cons a l => rfl

/-- pydantic construction, when it succeeds, returns the record unchanged. -/
theorem mk_ok_eq (f d : ColumnDescriptor) (h : mkColumnDescriptor f = .ok d) :
    d = f := by
  unfold mkColumnDescriptor at h
  split at h
  · exact absurd h (by simp)
  · injection h with h2
    exact h2.symm

/-- A successful column build returns a descriptor carrying the requested
column name. -/
theorem build_ok_name (ds : DataFrame) (n : String) (tc : List String)
    (d : ColumnDescriptor)
    (h : ColumnDescriptor.build_from_dataset ds n tc = .ok d) : d.name = n := by
  unfold ColumnDescriptor.build_from_dataset at h
  split at h
  · exact absurd h (by simp)
  · split at h
    · exact absurd h (by simp)
    · dsimp only [] at h
      split at h
      · exact absurd h (by simp)
      · rw [mk_ok_eq _ _ h]

/-- The per-column loop preserves the names, in order. -/
theorem buildColumnsInfo_names (ds : DataFrame) (tc : List String)
    (ns : List String) (infos : List ColumnDescriptor)
    (h : buildColumnsInfo ds tc ns = .ok infos) :
    infos.map (fun c => c.name) = ns := by
  induction ns generalizing infos with
  | nil =>
    unfold buildColumnsInfo at h
    injection h with h2
    rw [← h2]
    rfl
  | cons n rest ih =>
    unfold buildColumnsInfo at h
    split at h
    · exact absurd h (by simp)
    · rename_i d hd
      split at h
      · exact absurd h (by simp)
      · rename_i ds2 hds2
        injection h with h2
        rw [← h2]
        simp only [List.map_cons]
        rw [build_ok_name ds n tc d hd, ih ds2 hds2]

/-- Claim C3: for every dataframe and target list, a successful
DatasetDescriptor.build_from_dataset returns one column descriptor per source
column, in the original column order (witnessed by the descriptor names
matching the frame column names pointwise). -/
theorem claim_c3_columns_in_order (ds : DataFrame) (tc : List String)
    (dd : DatasetDescriptor)
    (h : DatasetDescriptor.build_from_dataset ds tc = .ok dd) :
    dd.cloumns_info.length = ds.columns.length ∧
    dd.cloumns_info.map (fun c => c.name) = colNames ds := by
  unfold DatasetDescriptor.build_from_dataset at h
  split at h
  · exact absurd h (by simp)
  · rename_i infos hinfos
    injection h with h2
    rw [← h2]
    have hnm := buildColumnsInfo_names ds tc (colNames ds) infos hinfos
    constructor
    · have := congrArg List.length hnm
      simpa [colNames] using this
    · exact hnm

/-- Claim C3 witness: the theorem instantiated on the concrete frame `dfA1`,
whose build succeeds. -/
theorem claim_c3_witness :
    DatasetDescriptor.build_from_dataset dfA1 [] = .ok ddA1 ∧
    ddA1.cloumns_info.length = dfA1.columns.length ∧
    ddA1.cloumns_info.map (fun c => c.name) = colNames dfA1 :=
  ⟨rfl, claim_c3_columns_in_order dfA1 [] ddA1 rfl⟩

/-- On a numeric-dtype column, a successful branch computation yields
Continuous with mean, median and mode all populated. -/
theorem branchStats_numeric (col : Column) (bo : BranchOut)
    (hn : is_numeric_dtype col.dtype = true)
    (h : branchStats col = .ok bo) :
    bo.feature_type = FeatureType.Continuous ∧ bo.mean.isSome = true ∧
    bo.median.isSome = true ∧ bo.mode.isSome = true := by
  unfold branchStats at h
  rw [hn] at h
  simp only [if_true] at h
  cases hm : pmode col.cells with
  | none => rw [hm] at h; exact absurd h (by simp)
  | some m =>
    rw [hm] at h
    cases hft : Dtypes.from_nptype col.dtype with
    | error e => rw [hft] at h; exact absurd h (by simp)
    | ok dt =>
      rw [hft] at h
      injection h with h2
      rw [← h2]
      refine ⟨rfl, ?_, ?_, rfl⟩
      · exact pmean_isSome col.cells (pmode_some_nonNull col.cells m hm)
      · exact pmedian_isSome col.cells (pmode_some_nonNull col.cells m hm)

/-- On a non-numeric string-like or boolean column, a successful branch
computation yields Ordinal with only the mode populated. -/
theorem branchStats_string (col : Column) (bo : BranchOut)
    (hn : is_numeric_dtype col.dtype = false)
    (hs : (is_string_dtype col.dtype || is_bool_dtype col.dtype) = true)
    (h : branchStats col = .ok bo) :
    bo.feature_type = FeatureType.Ordinal ∧ bo.mode.isSome = true ∧
    bo.mean = none ∧ bo.median = none := by
  unfold branchStats at h
  rw [hn, hs] at h
  simp only [Bool.false_eq_true, if_false, if_true] at h
  cases hm : pmode col.cells with
  | none => rw [hm] at h; exact absurd h (by simp)
  | some m =>
    rw [hm] at h
    dsimp only [] at h
    by_cases hcat : is_categorical_dtype col.dtype = true
    · rw [if_pos hcat] at h
      injection h with h2
      rw [← h2]
      exact ⟨rfl, rfl, rfl, rfl⟩
    · rw [if_neg hcat] at h
      cases hft : Dtypes.from_nptype col.dtype with
      | error e => rw [hft] at h; exact absurd h (by simp)
      | ok dt =>
        rw [hft] at h
        injection h with h2
        rw [← h2]
        exact ⟨rfl, rfl, rfl, rfl⟩

/-- Claim C2 (amended): for every column for which the builder succeeds, a
numeric storage type - which in pandas includes boolean columns - yields
feature_type Continuous with mean, median and mode all non-null, while a
non-numeric string-like column yields feature_type Ordinal with mode non-null
and mean and median null.  (The original claim placed boolean columns in the
Ordinal group; is_numeric_dtype is true for bool, so the numeric branch takes
precedence.) -/
theorem claim_c2_amended (ds : DataFrame) (colname : String) (tc : List String)
    (col : Column) (d : ColumnDescriptor)
    (hcol : getSingleColumn ds colname = .ok col)
    (h : ColumnDescriptor.build_from_dataset ds colname tc = .ok d) :
    (is_numeric_dtype col.dtype = true →
      d.feature_type = FeatureType.Continuous ∧ d.mean.isSome = true ∧
      d.median.isSome = true ∧ d.mode.isSome = true) ∧
    (is_numeric_dtype col.dtype = false →
      (is_string_dtype col.dtype || is_bool_dtype col.dtype) = true →
      d.feature_type = FeatureType.Ordinal ∧ d.mode.isSome = true ∧
      d.mean = none ∧ d.median = none) := by
  unfold ColumnDescriptor.build_from_dataset at h
  rw [hcol] at h
  dsimp only [] at h
  cases hbs : branchStats col with
  | error e => rw [hbs] at h; exact absurd h (by simp)
  | ok bo =>
    rw [hbs] at h
    dsimp only [] at h
    split at h
    · exact absurd h (by simp)
    · have hd := mk_ok_eq _ _ h
      constructor
      · intro hn
        have hb := branchStats_numeric col bo hn hbs
        rw [hd]
        exact hb
      · intro hn hs
        have hb := branchStats_string col bo hn hs hbs
        rw [hd]
        exact hb

/-- Claim C2 witness: the amended theorem applied to the concrete integer
column of `dfA1`, discharging both hypotheses. -/
theorem claim_c2_witness :
    getSingleColumn dfA1 "a" = .ok colA1 ∧
    is_numeric_dtype colA1.dtype = true ∧
    (descA1.feature_type = FeatureType.Continuous ∧ descA1.mean.isSome = true ∧
      descA1.median.isSome = true ∧ descA1.mode.isSome = true) :=
  ⟨rfl, rfl,
    (claim_c2_amended dfA1 "a" [] colA1 descA1 rfl rfl).1 rfl⟩

/-- Claim C8: pydantic construction of a ColumnDescriptor fails with the
InvalidImputationConfig ValueError whenever the imputation configuration is
incompatible with the dtype: MODE on integer or float dtypes, MEAN or MEDIAN
on categorical, boolean or date dtypes, and a VALUE scheme whose
imputation_value has the wrong runtime type for the dtype (Python isinstance
semantics, under which a bool counts as an int). -/
theorem claim_c8_imputation_rejected (f : ColumnDescriptor)
    (h : ((f.dtype = Dtypes.INTERGER ∨ f.dtype = Dtypes.FLOAT) ∧
            f.imputation_scheme = some ImputationScheme.MODE) ∨
         ((f.dtype = Dtypes.CATEGORICAL ∨ f.dtype = Dtypes.BOOLEAN ∨
            f.dtype = Dtypes.DATE) ∧
            (f.imputation_scheme = some ImputationScheme.MEAN ∨
             f.imputation_scheme = some ImputationScheme.MEDIAN)) ∨
         (f.imputation_scheme = some ImputationScheme.VALUE ∧
            valueTypeMismatch f.dtype f.imputation_value = true)) :
    isValueError (mkColumnDescriptor f) = true := by
  unfold mkColumnDescriptor validate_imputation
  rcases h with ⟨hd, hs⟩ | ⟨hd, hs⟩ | ⟨hs, hv⟩
  · rw [hs]
    rcases hd with hd | hd <;> rw [hd] <;> simp [isValueError, impSchemeErr]
  · rcases hd with hd | hd | hd <;> rcases hs with hs | hs <;>
      rw [hd, hs] <;> simp [isValueError, impSchemeErr]
  · rw [hs]
    rcases hdt : f.dtype <;> rw [hdt] at hv <;>
      simp only [valueTypeMismatch, Bool.not_eq_true'] at hv <;>
      simp [isValueError, impValueErr, hv]

/-- Claim C8 witness: the theorem applied to a concrete descriptor with
dtype INTERGER and imputation scheme MODE. -/
theorem claim_c8_witness :
    fC8.dtype = Dtypes.INTERGER ∧
    fC8.imputation_scheme = some ImputationScheme.MODE ∧
    isValueError (mkColumnDescriptor fC8) = true :=
  ⟨rfl, rfl, claim_c8_imputation_rejected fC8 (Or.inl ⟨Or.inl rfl, rfl⟩)⟩

/-- A passing input check returns the frame it was given. -/
theorem check_X_ok_eq (d d2 : DataFrame)
    (h : check_X_for_type (.df d) = .ok d2) : d2 = d := by
  unfold check_X_for_type at h
  dsimp only [] at h
  split at h
  · exact absurd h (by simp)
  · injection h with h2
    exact h2.symm

/-- A successful PandasTypeSelector fit records exactly the dtypes of the
fitted frame. -/
theorem pts_fit_dtypes (inc exc : Option (List NpDtype)) (d : DataFrame)
    (st : PTSFitted) (h : PandasTypeSelector.fit inc exc (.df d) = .ok st) :
    st.X_dtypes_ = dtypesOf d := by
  unfold PandasTypeSelector.fit at h
  split at h
  · exact absurd h (by simp)
  · rename_i d2 hd2
    split at h
    · exact absurd h (by simp)
    · dsimp only [] at h
      split at h
      · exact absurd h (by simp)
      · injection h with h2
        rw [← h2]
        dsimp only []
        rw [check_X_ok_eq d d2 hd2]

/-- The column labels of a frame are the first components of its dtype
series. -/
theorem dtypesOf_fst (d : DataFrame) :
    (dtypesOf d).map Prod.fst = colNames d := by
  unfold dtypesOf colNames
  rw [List.map_map]
  rfl

/-- Claim C9: after a successful PandasTypeSelector fit, a transform on a
frame with the same column labels in which the storage type of some selected
column changed fails, and the surfaced failure carries both the fit-time and
the transform-time dtype series (as the cause of the re-raised ValueError,
which is how Python surfaces them for diagnosis). -/
theorem claim_c9_schema_mismatch (inc exc : Option (List NpDtype))
    (d1 d2 : DataFrame) (st : PTSFitted) (n : String)
    (hfit : PandasTypeSelector.fit inc exc (.df d1) = .ok st)
    (hnames : colNames d2 = colNames d1)
    (_hsel : n ∈ st.feature_names_)
    (hdiff : lookupDtype d2 n ≠ lookupDtype d1 n) :
    PandasTypeSelector.transform inc exc (some st) (.df d2) =
      .error (Err.valueErrorFrom columnsNotEqualMsg
        (Err.dtypeMismatch (dtypesOf d1) (dtypesOf d2))) := by
  have hst := pts_fit_dtypes inc exc d1 st hfit
  have hne : dtypesOf d2 ≠ dtypesOf d1 := by
    intro he
    exact hdiff (by unfold lookupDtype; rw [he])
  unfold PandasTypeSelector.transform
  dsimp only []
  rw [if_neg (by rw [hst, dtypesOf_fst, dtypesOf_fst, hnames]; exact fun hc => hc rfl)]
  rw [if_pos (by rw [hst]; exact fun hc => hne hc.symm)]
  rw [hst]

/-- Claim C9 witness: fit on a one-column integer frame, then transform on the
same-named frame with the column retyped to float. -/
theorem claim_c9_witness :
    PandasTypeSelector.fit (some [NpDtype.int_]) none (.df dfN1) = .ok stN ∧
    "a" ∈ stN.feature_names_ ∧
    lookupDtype dfN2 "a" ≠ lookupDtype dfN1 "a" ∧
    PandasTypeSelector.transform (some [NpDtype.int_]) none (some stN) (.df dfN2) =
      .error (Err.valueErrorFrom columnsNotEqualMsg
        (Err.dtypeMismatch (dtypesOf dfN1) (dtypesOf dfN2))) :=
  ⟨by decide, by decide, by decide,
    claim_c9_schema_mismatch (some [NpDtype.int_]) none dfN1 dfN2 stN "a"
      (by decide) (by decide) (by decide) (by decide)⟩

/-- Claim C6 (amended): ColumnDropper and ColumnSelector fail with
WrongInputType on a non-frame input in both fit and transform (for
ColumnSelector.fit provided the requested list is non-empty, since the
empty-list check runs first), and with EmptyInput on an empty frame;
PandasTypeSelector does the same in fit, but its transform on a fitted
instance fails with AttributeError on a non-frame because it reads the dtypes
attribute before the tabular check; IdentityTransformer performs no tabular
check at all - with validation disabled, fit on a shapeless input fails with
AttributeError, not WrongInputType. -/
theorem claim_c6_amended (X : Input) (cols selCols : ColsParam)
    (inc exc : Option (List NpDtype)) (stD : ColumnDropperFitted)
    (stP : PTSFitted) (stS : List String) (d : DataFrame) :
    (X.isDf = false →
      ColumnDropper.fit cols X = .error wrongInputTypeErr ∧
      ColumnDropper.transform (some stD) X = .error wrongInputTypeErr ∧
      (as_list selCols ≠ [] → ColumnSelector.fit selCols X = .error wrongInputTypeErr) ∧
      ColumnSelector.transform selCols (some stS) X = .error wrongInputTypeErr ∧
      PandasTypeSelector.fit inc exc X = .error wrongInputTypeErr ∧
      PandasTypeSelector.transform inc exc (some stP) X = .error (Err.attributeError "dtypes") ∧
      IdentityTransformer.fit false Input.other = .error (Err.attributeError "shape")) ∧
    (isEmptyDf d = true →
      ColumnDropper.fit cols (.df d) = .error emptyInputErr ∧
      ColumnDropper.transform (some stD) (.df d) = .error emptyInputErr ∧
      (as_list selCols ≠ [] → ColumnSelector.fit selCols (.df d) = .error emptyInputErr) ∧
      ColumnSelector.transform selCols (some stS) (.df d) = .error emptyInputErr ∧
      PandasTypeSelector.fit inc exc (.df d) = .error emptyInputErr) := by
  have hsel : ∀ (Y : Input) (e : Err), check_X_for_type Y = .error e →
      (as_list selCols ≠ [] → ColumnSelector.fit selCols Y = .error e) := by
    intro Y e hY hne
    unfold ColumnSelector.fit check_column_length
    dsimp only []
    rw [if_neg (by simpa [List.length_eq_zero] using hne)]
    dsimp only []
    rw [hY]
  constructor
  · intro hX
    have hchk : check_X_for_type X = .error wrongInputTypeErr := by
      cases X with
      | df d2 => simp [Input.isDf] at hX
      | arr rows => rfl
      | other => rfl
    refine ⟨?_, ?_, hsel X wrongInputTypeErr hchk, ?_, ?_, ?_, rfl⟩
    · unfold ColumnDropper.fit
      rw [hchk]
    · unfold ColumnDropper.transform
      rw [hchk]
    · unfold ColumnSelector.transform
      rw [hchk]
    · unfold PandasTypeSelector.fit
      rw [hchk]
    · cases X with
      | df d2 => simp [Input.isDf] at hX
      | arr rows => rfl
      | other => rfl
  · intro hd
    have hchk : check_X_for_type (.df d) = .error emptyInputErr := by
      unfold check_X_for_type
      dsimp only []
      rw [if_pos hd]
    refine ⟨?_, ?_, hsel (.df d) emptyInputErr hchk, ?_, ?_⟩
    · unfold ColumnDropper.fit
      rw [hchk]
    · unfold ColumnDropper.transform
      rw [hchk]
    · unfold ColumnSelector.transform
      rw [hchk]
    · unfold PandasTypeSelector.fit
      rw [hchk]

/-- Claim C6 witness: the theorem instantiated at a shapeless non-tabular
input and at a concrete zero-row frame. -/
theorem claim_c6_witness :
    Input.isDf Input.other = false ∧ isEmptyDf dfEmpty = true ∧
    ColumnDropper.fit (ColsParam.list ["a"]) Input.other = .error wrongInputTypeErr ∧
    ColumnDropper.fit (ColsParam.list ["a"]) (.df dfEmpty) = .error emptyInputErr :=
  ⟨rfl, rfl,
    ((claim_c6_amended Input.other (ColsParam.list ["a"]) (ColsParam.list ["a"])
        none none { columns_ := [], feature_names_ := [] }
        { X_dtypes_ := [], feature_names_ := [] } [] dfEmpty).1 rfl).1,
    ((claim_c6_amended Input.other (ColsParam.list ["a"]) (ColsParam.list ["a"])
        none none { columns_ := [], feature_names_ := [] }
        { X_dtypes_ := [], feature_names_ := [] } [] dfEmpty).2 rfl).1⟩

/-- Claim C6 counterexample: IdentityTransformer.fit with its default
configuration, given a non-tabular input, fails with AttributeError rather
than the claimed WrongInputType. -/
theorem claim_c6_counterexample :
    IdentityTransformer.fit false Input.other = .error (Err.attributeError "shape") ∧
    Err.attributeError "shape" ≠ wrongInputTypeErr :=
  ⟨rfl, by decide⟩

/-- Claim C7 (amended): transform before any fit raises NotFitted for
ColumnDropper, PandasTypeSelector and IdentityTransformer; ColumnSelector has
no fitted-state check, so on a valid frame its transform before fit fails with
AttributeError when the requested columns parameter is truthy, and returns the
input unchanged when it is an empty list. -/
theorem claim_c7_amended (X : Input) (inc exc : Option (List NpDtype))
    (cols : ColsParam) (d : DataFrame) :
    ColumnDropper.transform none X = .error Err.notFittedError ∧
    PandasTypeSelector.transform inc exc none X = .error Err.notFittedError ∧
    IdentityTransformer.transform false none X = .error Err.notFittedError ∧
    (isEmptyDf d = false → truthy cols = true →
      ColumnSelector.transform cols none (.df d) = .error (Err.attributeError "columns_")) ∧
    (isEmptyDf d = false →
      ColumnSelector.transform (ColsParam.list []) none (.df d) = .ok (.df d)) := by
  have hchk : ∀ hd : isEmptyDf d = false, check_X_for_type (.df d) = .ok d := by
    intro hd
    unfold check_X_for_type
    dsimp only []
    rw [if_neg (by simp [hd])]
  refine ⟨rfl, rfl, rfl, ?_, ?_⟩
  · intro hd ht
    unfold ColumnSelector.transform
    rw [hchk hd]
    dsimp only []
    rw [if_pos ht]
  · intro hd
    unfold ColumnSelector.transform
    rw [hchk hd]
    rfl

/-- Claim C7 witness: the theorem instantiated at the concrete valid frame
`dfA1` and a non-empty selector list. -/
theorem claim_c7_witness :
    isEmptyDf dfA1 = false ∧ truthy (ColsParam.list ["a"]) = true ∧
    ColumnDropper.transform none (.df dfA1) = .error Err.notFittedError ∧
    ColumnSelector.transform (ColsParam.list ["a"]) none (.df dfA1) =
      .error (Err.attributeError "columns_") :=
  ⟨rfl, rfl,
    (claim_c7_amended (.df dfA1) none none (ColsParam.list ["a"]) dfA1).1,
    (claim_c7_amended (.df dfA1) none none (ColsParam.list ["a"]) dfA1).2.2.2.1 rfl rfl⟩

/-- Claim C7 counterexample: on a valid one-column frame, an unfitted
ColumnSelector transform fails with AttributeError, not the claimed NotFitted
error. -/
theorem claim_c7_counterexample :
    ColumnSelector.transform (ColsParam.list ["a"]) none (.df dfA1) =
      .error (Err.attributeError "columns_") ∧
    Err.attributeError "columns_" ≠ Err.notFittedError :=
  ⟨by decide, by decide⟩

/-- Claim C10: ColumnDropper accepts an empty drop-list - its fit performs no
empty-list check, unlike ColumnSelector.fit, which rejects an empty list with
EmptyColumnList - and succeeds on every valid non-empty frame, recording an
empty drop-list and all column names as retained; the subsequent transform
returns its input frame unchanged. -/
theorem claim_c10_dropper_empty_list (d d2 : DataFrame) (fns : List String)
    (h : isEmptyDf d = false) (h2 : isEmptyDf d2 = false) :
    ColumnDropper.fit (ColsParam.list []) (.df d) =
      .ok { columns_ := [], feature_names_ := colNames d } ∧
    ColumnDropper.transform (some { columns_ := [], feature_names_ := fns }) (.df d2) =
      .ok (.df d2) ∧
    ColumnSelector.fit (ColsParam.list []) (.df d) = .error emptyColumnListErr := by
  have hchk : ∀ (e : DataFrame), isEmptyDf e = false →
      check_X_for_type (.df e) = .ok e := by
    intro e he
    unfold check_X_for_type
    dsimp only []
    rw [if_neg (by simp [he])]
  have hcols : d.columns.length ≠ 0 := by
    intro hc
    unfold isEmptyDf at h
    rw [hc] at h
    simp at h
  refine ⟨?_, ?_, rfl⟩
  · unfold ColumnDropper.fit
    dsimp only [as_list]
    rw [hchk d h]
    dsimp only []
    rw [if_neg (by simp)]
    have hfil : (d.columns.filter (fun c => !(List.contains [] c.name))) = d.columns := by
      simp [List.contains]
    rw [hfil]
    rw [if_neg (by simpa [colNames] using hcols)]
    rfl
  · unfold ColumnDropper.transform
    dsimp only []
    rw [hchk d2 h2]
    dsimp only []
    rw [if_neg (by simp)]

/-- Claim C10 witness: the theorem instantiated at the concrete one-column
frame `dfA1` for both fit and transform. -/
theorem claim_c10_witness :
    isEmptyDf dfA1 = false ∧
    ColumnDropper.fit (ColsParam.list []) (.df dfA1) =
      .ok { columns_ := [], feature_names_ := ["a"] } ∧
    ColumnDropper.transform
      (some { columns_ := [], feature_names_ := ["a"] }) (.df dfA1) =
      .ok (.df dfA1) ∧
    ColumnSelector.fit (ColsParam.list []) (.df dfA1) = .error emptyColumnListErr :=
  ⟨rfl,
    (claim_c10_dropper_empty_list dfA1 dfA1 ["a"] rfl rfl).1,
    (claim_c10_dropper_empty_list dfA1 dfA1 ["a"] rfl rfl).2.1,
    (claim_c10_dropper_empty_list dfA1 dfA1 ["a"] rfl rfl).2.2⟩
